import Mathlib

/-!
# Creator Fusion YouTube Analyzer — verification development

Shallow embedding of the analysis pipeline of the
`creator-fusion-youtube-analyzer` repository, together with theorems that
settle the frozen claims about it.

Conventions of the embedding:
* JavaScript numbers are modelled by `ℚ` (all arithmetic appearing in the
  embedded code paths is exact decimal/rational arithmetic), except where the
  source calls `Math.sqrt`, which is modelled by `Real.sqrt`.
* `Math.round` (round half towards +∞) is `⌊x + 1/2⌋`.
* `Math.min`/`Math.max` are `min`/`max`; `Math.round`-ed integer results live
  in `ℤ`.
* JavaScript string values are `String`; `toLowerCase` maps `Char.toLower`
  over the characters (all relevant table entries are ASCII).
* Object literals used as lookup tables are association lists searched with
  `List.find?`; the `??`-fallback of the source is `Option.getD`.
-/

namespace CreatorFusion

/-- JavaScript `Math.round` on an exact rational: round half away from
negative infinity, i.e. `⌊x + 1/2⌋`. -/
def jround (x : ℚ) : ℤ := ⌊x + 1/2⌋

/-- JavaScript `Math.round` for real-valued intermediates (those produced by
`Math.sqrt`). -/
noncomputable def jroundR (x : ℝ) : ℤ := ⌊x + 1/2⌋

/-- `clamp(n, a, b) = Math.min(Math.max(n, a), b)` from `analytics.js`. -/
def clamp (n a b : ℚ) : ℚ := min (max n a) b

/-- Lower-case a string character-wise (`String.prototype.toLowerCase` on the
ASCII table entries used by the source). -/
def jsLower (s : String) : String := ⟨s.data.map Char.toLower⟩

/-- `needle` occurs at the start of `haystack` (character lists). -/
def charsHasPrefixOf : List Char → List Char → Bool
  | [], _ => true
  | _ :: _, [] => false
  | n :: ns, h :: hs => n == h && charsHasPrefixOf ns hs

/-- `haystack.includes(needle)`: substring occurrence on character lists. -/
def charsContains (haystack needle : List Char) : Bool :=
  charsHasPrefixOf needle haystack ||
    match haystack with
    | [] => false
    | _ :: rest => charsContains rest needle

/-- `a.includes(b)` for strings. -/
def jsIncludes (a b : String) : Bool := charsContains a.data b.data

-- ─── analytics.js: parseDuration ──────────────────────────────────────────

/-- Value of a list of decimal digit characters (`parseInt` on a captured
digit group). -/
def natOfDigits (ds : List Char) : ℕ :=
  ds.foldl (fun a c => 10 * a + (c.toNat - '0'.toNat)) 0

/-- Split a character list into its maximal leading run of decimal digits and
the remainder (the greedy `\d+` of the regex). -/
def spanDigits : List Char → List Char × List Char
  | [] => ([], [])
  | c :: rest =>
    if c.isDigit then
      let p := spanDigits rest
      (c :: p.1, p.2)
    else ([], c :: rest)

/-- One optional regex group `(?:(\d+)X)?` at the current position: if a
nonempty digit run immediately followed by the marker `X` is present, return
its value and consume it; otherwise match the empty string and consume
nothing. -/
def tryComponent (marker : Char) (l : List Char) : ℕ × List Char :=
  let p := spanDigits l
  match p.1, p.2 with
  | [], _ => (0, l)
  | _ :: _, c :: rest => if c = marker then (natOfDigits p.1, rest) else (0, l)
  | _ :: _, [] => (0, l)

/-- Unanchored search for the literal `PT` of
`/PT(?:(\d+)H)?(?:(\d+)M)?(?:(\d+)S)?/`: the regex can only succeed at an
occurrence of `PT`, and the engine takes the first one. Returns the suffix
after `PT`, or `none` when the string has no `PT` (in which case
`String.prototype.match` returns `null`). -/
def findPT : List Char → Option (List Char)
  | 'P' :: 'T' :: rest => some rest
  | _ :: rest => findPT rest
  | [] => none

/-- `parseDuration` from `analytics.js` (lines 370–377):

```js
const m = iso.match(/PT(?:(\d+)H)?(?:(\d+)M)?(?:(\d+)S)?/);
if (!m) return 0;
return (parseInt(m[1] || '0', 10) * 3600)
     + (parseInt(m[2] || '0', 10) * 60)
     + parseInt(m[3] || '0', 10);
```

Note the regex has hour/minute/second groups only — no day group — and
requires the literal `PT`. -/
def parseDuration (iso : String) : ℕ :=
  match findPT iso.data with
  | none => 0
  | some rest =>
    let h := tryComponent 'H' rest
    let m := tryComponent 'M' h.2
    let s := tryComponent 'S' m.2
    h.1 * 3600 + m.1 * 60 + s.1

/-- `isShort` derivation from `parseVideos` (`analytics.js` line 75):
`durationSeconds > 0 && durationSeconds <= 60`. -/
def isShort (durationSeconds : ℕ) : Bool :=
  decide (0 < durationSeconds) && decide (durationSeconds ≤ 60)

-- ─── analytics.js: audience tiers ─────────────────────────────────────────

/-- One entry of `AUDIENCE_TIERS`; `max = none` models `Infinity`. -/
structure Tier where
  name : String
  tmin : ℤ
  tmax : Option ℤ
  label : String
  deriving DecidableEq

/-- `AUDIENCE_TIERS` from `analytics.js` (lines 12–18). -/
def AUDIENCE_TIERS : List Tier :=
  [⟨"Nano", 0, some 9999, "nano (1K–10K)"⟩,
   ⟨"Micro", 10000, some 49999, "micro (10K–50K)"⟩,
   ⟨"Mid-Tier", 50000, some 499999, "mid-tier (50K–500K)"⟩,
   ⟨"Macro", 500000, some 999999, "macro (500K–1M)"⟩,
   ⟨"Mega", 1000000, none, "mega (1M+)"⟩]

/-- The predicate `subscribers >= t.min && subscribers <= t.max` of
`classifyAudienceTier` (`s <= Infinity` is always true). -/
def tierMatches (t : Tier) (s : ℤ) : Bool :=
  decide (t.tmin ≤ s) &&
    match t.tmax with
    | some m => decide (s ≤ m)
    | none => true

/-- `classifyAudienceTier` from `analytics.js` (lines 35–38); the `??`
fallback is `AUDIENCE_TIERS[0]`, the Nano tier. -/
def classifyAudienceTier (s : ℤ) : Tier :=
  (AUDIENCE_TIERS.find? fun t => tierMatches t s).getD
    ⟨"Nano", 0, some 9999, "nano (1K–10K)"⟩

-- ─── analytics.js: Creator Fusion Score ───────────────────────────────────

/-- `ENGAGEMENT_BENCHMARKS` from `analytics.js` (lines 24–30):
tier name ↦ (good, great). -/
def ENGAGEMENT_BENCHMARKS : List (String × ℚ × ℚ) :=
  [("Nano", 8, 12), ("Micro", 5, 8), ("Mid-Tier", 3, 5),
   ("Macro", 2, 7/2), ("Mega", 3/2, 5/2)]

/-- `ENGAGEMENT_BENCHMARKS[tier.name] ?? ENGAGEMENT_BENCHMARKS['Mid-Tier']`
(`analytics.js` line 185). -/
def benchFor (name : String) : ℚ × ℚ :=
  ((ENGAGEMENT_BENCHMARKS.find? fun e => e.1 == name).getD ("Mid-Tier", 3, 5)).2

/-- Engagement sub-score (`analytics.js` lines 188–192), `bench = (good,
great)`. -/
def engScore (er : ℚ) (bench : ℚ × ℚ) : ℚ :=
  if bench.2 ≤ er then 90 + min 10 ((er - bench.2) * 2)
  else if bench.1 ≤ er then 60 + (er - bench.1) / (bench.2 - bench.1) * 30
  else if 0 < er then er / bench.1 * 60
  else 0

/-- Frequency sub-score (`analytics.js` lines 198–204):

```js
if      (ppw >= 2 && ppw <= 5) freqScore = 90 + Math.min(10, (ppw - 2) * 3);
else if (ppw > 5)              freqScore = Math.max(70, 100 - (ppw - 5) * 5);
else if (ppw >= 1)             freqScore = 50 + (ppw - 1) * 40;
else if (ppw >= 0.25)          freqScore = Math.min(50, ppw * 200);
else if (ppw > 0)              freqScore = 10;
```
-/
def freqScore (ppw : ℚ) : ℚ :=
  if 2 ≤ ppw ∧ ppw ≤ 5 then 90 + min 10 ((ppw - 2) * 3)
  else if 5 < ppw then max 70 (100 - (ppw - 5) * 5)
  else if 1 ≤ ppw then 50 + (ppw - 1) * 40
  else if 1/4 ≤ ppw then min 50 (ppw * 200)
  else if 0 < ppw then 10
  else 0

/-- View-to-subscriber sub-score (`analytics.js` lines 207–211). -/
def vsScore (vsr : ℚ) : ℚ :=
  if 30 ≤ vsr then 90 + min 10 ((vsr - 30) * (1/2))
  else if 15 ≤ vsr then 60 + (vsr - 15) / 15 * 30
  else if 0 < vsr then vsr / 15 * 60
  else 0

/-- Audience-reach sub-score (`analytics.js` lines 214–221). -/
def audScore (subscribers : ℤ) : ℚ :=
  if 1000000 ≤ subscribers then 95
  else if 500000 ≤ subscribers then 85
  else if 100000 ≤ subscribers then 75
  else if 50000 ≤ subscribers then 65
  else if 10000 ≤ subscribers then 50
  else if 1000 ≤ subscribers then 30
  else 10

/-- `scoreToGrade` from `analytics.js` (lines 332–341). -/
def scoreToGrade (s : ℤ) : String :=
  if 90 ≤ s then "A+"
  else if 80 ≤ s then "A"
  else if 70 ≤ s then "B+"
  else if 60 ≤ s then "B"
  else if 50 ≤ s then "C+"
  else if 40 ≤ s then "C"
  else if 30 ≤ s then "D"
  else "F"

/-- The fields of the analyzer result consumed by
`calculateCreatorFusionScore`. -/
structure Analytics where
  engagementRate : ℚ
  postingConsistency : ℚ
  postsPerWeek : ℚ
  viewToSubRatio : ℚ

/-- The claim-relevant fields of the object returned by
`calculateCreatorFusionScore`. -/
structure CompositeScore where
  score : ℤ
  grade : String
  tierName : String

/-- `calculateCreatorFusionScore` from `analytics.js` (lines 182–246).
`subscribers` is the already-parsed `safeInt(channelStats.subscriberCount)`.
The returned `score` is `clamp(Math.round(weighted sum), 0, 100)`; the grade
is computed from the rounded score before that final clamp (line 231). -/
def calculateCreatorFusionScore (a : Analytics) (subscribers : ℤ) : CompositeScore :=
  let tier := classifyAudienceTier subscribers
  let bench := benchFor tier.name
  let eng := engScore a.engagementRate bench
  let con := a.postingConsistency
  let freq := freqScore a.postsPerWeek
  let vs := vsScore a.viewToSubRatio
  let aud := audScore subscribers
  let score := jround (clamp eng 0 100 * (35/100) + clamp con 0 100 * (20/100)
    + clamp freq 0 100 * (15/100) + clamp vs 0 100 * (15/100)
    + clamp aud 0 100 * (15/100))
  { score := min (max score 0) 100
    grade := scoreToGrade score
    tierName := tier.name }

/-- Affine interpolation taken from the spec's words: "between `l` and `r`,
linear from `a` to `b`". Used to compare the spec's description of the
frequency sub-score with the code's actual formula. -/
def specLinearOn (l r a b x : ℚ) : ℚ := a + (x - l) / (r - l) * (b - a)

-- ─── rate-card.js: niche multipliers ──────────────────────────────────────

/-- `NICHE_MULTIPLIERS` from `rate-card.js` (lines 46–61), in source
(insertion) order, as iterated by `Object.entries`. -/
def NICHE_MULTIPLIERS : List (String × ℚ) :=
  [("Technology", 13/10), ("Finance", 3/2), ("Business", 7/5), ("Science", 6/5),
   ("Education", 11/10), ("Health", 6/5), ("Gaming", 9/10), ("Music", 4/5),
   ("Entertainment", 9/10), ("Sports", 1), ("Lifestyle", 11/10), ("Comedy", 17/20),
   ("Film", 9/10), ("Society", 1)]

/-- `cat.toLowerCase().includes(niche.toLowerCase())` (`rate-card.js`
line 96). -/
def nicheMatch (cat niche : String) : Bool := jsIncludes (jsLower cat) (jsLower niche)

/-- Body of the inner loop of the niche adjustment (`rate-card.js` lines
95–102): replace the accumulator `(matchedNiche, nicheMultiplier)` by the
entry `e` exactly when the category matches and `e`'s multiplier is
strictly greater. -/
def nicheEntryStep (cat : String) (a e : String × ℚ) : String × ℚ :=
  if nicheMatch cat e.1 ∧ a.2 < e.2 then e else a

/-- The inner `for (const [niche, mult] of Object.entries(NICHE_MULTIPLIERS))`
loop for one category. -/
def nicheStep (cat : String) (acc : String × ℚ) : String × ℚ :=
  NICHE_MULTIPLIERS.foldl (nicheEntryStep cat) acc

/-- The niche adjustment of `generateRateCard` (`rate-card.js` lines 91–103):
both loops, starting from `matchedNiche = 'General'`,
`nicheMultiplier = 1.0`. -/
def nicheAdjustment (cats : List String) : String × ℚ :=
  cats.foldl (fun acc cat => nicheStep cat acc) ("General", 1)

-- ─── analytics.js: posting consistency ────────────────────────────────────

/-- `Math.round` for real-valued intermediates (used when `Math.sqrt`
appears upstream). -/
noncomputable def jroundRe (x : ℝ) : ℤ := ⌊x + 1/2⌋

/-- `dates.sort((a, b) => a - b)` of `analyzeVideos` (`analytics.js`
line 110): publish times in days, ascending. -/
def sortDates (dates : List ℚ) : List ℚ := dates.mergeSort (fun a b => decide (a ≤ b))

/-- Consecutive differences (the `gaps` loop, `analytics.js` lines
117–120). -/
def gapsOf : List ℚ → List ℚ
  | a :: b :: rest => (b - a) :: gapsOf (b :: rest)
  | _ => []

/-- Mean of a rational list (`sum(gaps) / gaps.length`). -/
def meanQ (l : List ℚ) : ℚ := l.sum / l.length

/-- Population variance of a rational list (the `reduce` on
`analytics.js` line 125). -/
def popVarQ (l : List ℚ) : ℚ := ((l.map fun g => (g - meanQ l)^2).sum) / l.length

/-- Posting-consistency computation of `analyzeVideos` (`analytics.js`
lines 116–133), as a function of the raw publish times (in days):

```js
let postingConsistency = 100;
if (gaps.length >= 2) {
    const avgGap   = sum(gaps) / gaps.length;
    const variance = gaps.reduce((s, g) => s + (g - avgGap) ** 2, 0) / gaps.length;
    const stdDev   = Math.sqrt(variance);
    postingConsistency = Math.max(0, Math.round(
        (1 - Math.min(stdDev / Math.max(avgGap, 1), 1)) * 100,
    ));
} else if (gaps.length === 1) {
    postingConsistency = 60;
}
```

Note the divisor is `Math.max(avgGap, 1)`, not `avgGap`. -/
noncomputable def postingConsistency (dates : List ℚ) : ℤ :=
  let gaps := gapsOf (sortDates dates)
  if 2 ≤ gaps.length then
    let avgGap : ℚ := gaps.sum / gaps.length
    let variance : ℚ := ((gaps.map fun g => (g - avgGap)^2).sum) / gaps.length
    let stdDev : ℝ := Real.sqrt (variance : ℝ)
    max 0 (jroundRe ((1 - min (stdDev / ((max avgGap 1 : ℚ) : ℝ)) 1) * 100))
  else if gaps.length = 1 then 60 else 100

/-- Modelled from the spec's words ("consistency = round(100 × (1 −
min(stddev/mean, 1))), floored at 0"): identical to `postingConsistency`
except that the standard deviation is divided by the mean gap itself, with
no `max(·, 1)` guard. Used only to compare the spec's formula with the
code's. -/
noncomputable def specConsistency (dates : List ℚ) : ℤ :=
  let gaps := gapsOf (sortDates dates)
  if 2 ≤ gaps.length then
    let avgGap : ℚ := gaps.sum / gaps.length
    let variance : ℚ := ((gaps.map fun g => (g - avgGap)^2).sum) / gaps.length
    let stdDev : ℝ := Real.sqrt (variance : ℝ)
    max 0 (jroundRe ((1 - min (stdDev / (avgGap : ℝ)) 1) * 100))
  else if gaps.length = 1 then 60 else 100

-- ─── sponsorship.js: detectSponsorships ───────────────────────────────────

/-- `DISCLOSURE_HASHTAGS` from `sponsorship.js` (lines 19–22). -/
def DISCLOSURE_HASHTAGS : List String :=
  ["#ad", "#sponsored", "#partner", "#paidpartnership",
   "#collab", "#gifted", "#brandambassador", "#affiliate"]

/-- The three regex-driven signal families of `detectSponsorships` (the
`SPONSORSHIP_PHRASES` loop, the `AFFILIATE_PATTERNS` loop, and the
`PROMO_CODE_REGEX` loop, `sponsorship.js` lines 112–151), abstracted as
functions from a description to the list of signals they produce for it.
Only the disclosure-hashtag family (modelled concretely below) feeds the
disclosure counter; these three only contribute to whether a video counts
as detected. Theorems about the disclosure rate are proved for every
instantiation of this structure, so they hold in particular for the
concrete regexes of the source. -/
structure RegexScanners where
  phraseSignals : String → List String
  affiliateSignals : String → List String
  promoSignals : String → List String

/-- Disclosure-hashtag scan of one description (`sponsorship.js` lines
104–109): case-insensitive substring test of each fixed tag (the table
entries are already lower-case) against the lower-cased description; each
match pushes one signal and increments the global `disclosureCount`. -/
def disclosureSignals (desc : String) : List String :=
  DISCLOSURE_HASHTAGS.filter fun tag => jsIncludes (jsLower desc) tag

/-- Total number of signals a video's description produces across the four
families; the video is "detected" iff this is positive (`sponsorship.js`
line 153). -/
def videoSignalTotal (rs : RegexScanners) (desc : String) : ℕ :=
  (disclosureSignals desc).length + (rs.phraseSignals desc).length +
    (rs.affiliateSignals desc).length + (rs.promoSignals desc).length

/-- One iteration of the `for (const video of videos)` loop, accumulating
`(disclosureCount, sponsoredVideos.length)`. -/
def scanStep (rs : RegexScanners) (acc : ℕ × ℕ) (desc : String) : ℕ × ℕ :=
  (acc.1 + (disclosureSignals desc).length,
   if 0 < videoSignalTotal rs desc then acc.2 + 1 else acc.2)

/-- The claim-relevant fields of the report returned by
`detectSponsorships`. -/
structure SponsorshipReport where
  totalVideosScanned : ℕ
  totalDetected : ℕ
  sponsorshipRate : ℤ
  hasProperDisclosure : Bool
  disclosureRate : ℤ

/-- `detectSponsorships` from `sponsorship.js` (lines 89–188), with videos
represented by their description strings (`video.description ?? ''`).
The empty-input branch is `emptyReport()`;
`disclosureRate = sponsoredVideos.length > 0 ?
Math.round(disclosureCount / sponsoredVideos.length * 100) : 100`
(lines 180–182). -/
def detectSponsorships (rs : RegexScanners) (videos : List String) : SponsorshipReport :=
  if videos.length = 0 then
    { totalVideosScanned := 0, totalDetected := 0, sponsorshipRate := 0,
      hasProperDisclosure := true, disclosureRate := 100 }
  else
    let acc := videos.foldl (scanStep rs) (0, 0)
    { totalVideosScanned := videos.length
      totalDetected := acc.2
      sponsorshipRate := jround ((acc.2 : ℚ) / (videos.length : ℚ) * 100)
      hasProperDisclosure := decide (0 < acc.1)
      disclosureRate :=
        if 0 < acc.2 then jround ((acc.1 : ℚ) / (acc.2 : ℚ) * 100) else 100 }

-- ─── rate-card.js: pricing ────────────────────────────────────────────────

/-- A per-tier CPM triple from `BASE_CPM` (`rate-card.js` lines 25–31). -/
structure CpmTriple where
  low : ℚ
  mid : ℚ
  high : ℚ

/-- A per-tier fixed-fee floor record from `TIER_FLOORS` (`rate-card.js`
lines 37–43). -/
structure TierFloors where
  integration : ℤ
  dedicated : ℤ
  shorts : ℤ

/-- `BASE_CPM` from `rate-card.js` (lines 25–31). -/
def BASE_CPM : List (String × CpmTriple) :=
  [("Nano", ⟨5, 10, 20⟩), ("Micro", ⟨10, 18, 30⟩), ("Mid-Tier", ⟨15, 22, 35⟩),
   ("Macro", ⟨20, 28, 40⟩), ("Mega", ⟨25, 35, 50⟩)]

/-- `TIER_FLOORS` from `rate-card.js` (lines 37–43). -/
def TIER_FLOORS : List (String × TierFloors) :=
  [("Nano", ⟨100, 200, 50⟩), ("Micro", ⟨500, 1000, 150⟩),
   ("Mid-Tier", ⟨2500, 5000, 500⟩), ("Macro", ⟨10000, 25000, 2000⟩),
   ("Mega", ⟨30000, 75000, 5000⟩)]

/-- The own property names of `Object.prototype`, which `BASE_CPM` and
`TIER_FLOORS` (plain object literals) inherit. A property access
`BASE_CPM[tier]` with one of these keys returns the inherited value (a
function, or `Object.prototype` itself for `__proto__`) — which is not
nullish, so the `??` fallback is NOT taken; every numeric field of that
value is `undefined`, and all downstream arithmetic produces `NaN`. -/
def OBJECT_PROTOTYPE_KEYS : List String :=
  ["constructor", "hasOwnProperty", "isPrototypeOf", "propertyIsEnumerable",
   "toLocaleString", "toString", "valueOf", "__proto__", "__defineGetter__",
   "__defineSetter__", "__lookupGetter__", "__lookupSetter__"]

/-- `BASE_CPM[tier] ?? BASE_CPM['Mid-Tier']` (`rate-card.js` line 87),
with JavaScript property-lookup semantics: an own key returns its CPM
record; a key inherited from `Object.prototype` returns the inherited
non-nullish value, bypassing the `??` fallback — modelled as `none`, since
its `low`/`mid`/`high` fields are all `undefined`; any other key gives
`undefined`, so the `??` fallback selects the Mid-Tier record. -/
def baseCpmFor (tier : String) : Option CpmTriple :=
  match BASE_CPM.find? fun e => e.1 == tier with
  | some e => some e.2
  | none =>
    if tier ∈ OBJECT_PROTOTYPE_KEYS then none
    else some ⟨15, 22, 35⟩

/-- `TIER_FLOORS[tier] ?? TIER_FLOORS['Mid-Tier']` (`rate-card.js`
line 88), with the same property-lookup semantics as `baseCpmFor`:
`none` models the `Object.prototype`-inherited value whose
`integration`/`dedicated`/`shorts` fields are `undefined`. -/
def floorsFor (tier : String) : Option TierFloors :=
  match TIER_FLOORS.find? fun e => e.1 == tier with
  | some e => some e.2
  | none =>
    if tier ∈ OBJECT_PROTOTYPE_KEYS then none
    else some ⟨2500, 5000, 500⟩

/-- Engagement premium/discount step function of the composite score
(`rate-card.js` lines 107–112). -/
def engagementMultiplier (cfs : ℚ) : ℚ :=
  if 80 ≤ cfs then 5/4
  else if 65 ≤ cfs then 11/10
  else if 50 ≤ cfs then 1
  else if 35 ≤ cfs then 17/20
  else 7/10

/-- A low/mid/high dollar range. `some n` is an integer produced by
`Math.round`; `none` is `NaN` (arithmetic over an `undefined` CPM field or
floor). -/
structure RateTriple where
  low : Option ℤ
  mid : Option ℤ
  high : Option ℤ

/-- JavaScript `<=` on possibly-NaN rounded dollar amounts: any comparison
involving `NaN` is false. -/
def jleZ : Option ℤ → Option ℤ → Prop
  | some a, some b => a ≤ b
  | _, _ => False

/-- `Math.round(m * k)` where `m` may be `NaN`/`undefined`
(`NaN * k = NaN`, `Math.round(NaN) = NaN`). -/
def jscaleRound (m : Option ℤ) (k : ℚ) : Option ℤ :=
  match m with
  | some v => some (jround ((v : ℚ) * k))
  | none => none

/-- `calcRate` from `rate-card.js` (lines 166–178). When the CPM record and
the floor are genuine numbers this is the rounded CPM formula floored at
`floor` / `round(1.5·floor)` / `round(2.5·floor)`. When either is the
`undefined`-field case (`none`), every product is `NaN`,
`Math.round(NaN) = NaN`, and `Math.max` with a `NaN` (or `undefined`,
coerced to `NaN`) argument is `NaN`: all three results are `NaN`. -/
def calcRate (views : ℚ) (cpm : Option CpmTriple) (typeMult qualMult : ℚ)
    (fl : Option ℤ) : RateTriple :=
  match cpm, fl with
  | some c, some f =>
    { low := some (max (jround (views / 1000 * c.low * typeMult * qualMult)) f)
      mid := some (max (jround (views / 1000 * c.mid * typeMult * qualMult))
        (jround ((f : ℚ) * (3/2))))
      high := some (max (jround (views / 1000 * c.high * typeMult * qualMult))
        (jround ((f : ℚ) * (5/2)))) }
  | _, _ => { low := none, mid := none, high := none }

/-- `sponsorship ? ... : 'Unknown'` brand-deal-experience classification
(`rate-card.js` lines 130–136); `none` models a null sponsorship input,
`some d` one with `totalDetected = d`. -/
def brandDealExperience (sponsorship : Option ℤ) : String :=
  match sponsorship with
  | none => "Unknown"
  | some d =>
    if 10 ≤ d then "Very experienced — frequent brand partnerships"
    else if 5 ≤ d then "Experienced — regular brand deals"
    else if 1 ≤ d then "Some experience — occasional partnerships"
    else "No sponsorship history detected — may be open to first deals"

/-- `r2(n) = Math.round(n * 100) / 100` (`rate-card.js` line 180). -/
def r2 (n : ℚ) : ℚ := (jround (n * 100) : ℚ) / 100

/-- The claim-relevant fields of the object returned by
`generateRateCard`. -/
structure RateCard where
  estimatedIntegrationRate : RateTriple
  estimatedDedicatedRate : RateTriple
  estimatedShortsRate : RateTriple
  usageRightsAddon : RateTriple
  nicheCategory : String
  nicheMultiplier : ℚ
  engMultiplier : ℚ
  combinedMultiplier : ℚ
  dealExperience : String

/-- `generateRateCard` from `rate-card.js` (lines 78–152). The
`subscribers` and `engagementRate` parameters of the source are destructured
but never used by the function body, and are omitted here. -/
def generateRateCard (avgViews : ℚ) (tier : String) (cfs : ℚ)
    (cats : List String) (sponsorship : Option ℤ) : RateCard :=
  let baseCpm := baseCpmFor tier
  let floors := floorsFor tier
  let niche := nicheAdjustment cats
  let engMult := engagementMultiplier cfs
  let combined := niche.2 * engMult
  let integration := calcRate avgViews baseCpm 1 combined
    (floors.map TierFloors.integration)
  let dedicated := calcRate avgViews baseCpm 2 combined
    (floors.map TierFloors.dedicated)
  let shorts := calcRate (avgViews * (6/10)) baseCpm (3/10) combined
    (floors.map TierFloors.shorts)
  let usageRights : RateTriple :=
    ⟨jscaleRound integration.mid (3/10),
     jscaleRound integration.mid (13/20),
     jscaleRound integration.mid 1⟩
  { estimatedIntegrationRate := integration
    estimatedDedicatedRate := dedicated
    estimatedShortsRate := shorts
    usageRightsAddon := usageRights
    nicheCategory := niche.1
    nicheMultiplier := r2 niche.2
    engMultiplier := r2 engMult
    combinedMultiplier := r2 combined
    dealExperience := brandDealExperience sponsorship }

-- ─── authenticity.js: analyzeAuthenticity ─────────────────────────────────

/-- A parsed video as consumed by `analyzeAuthenticity` (the fields it
reads). Counts are the already-parsed `safeInt` values. -/
structure AVideo where
  views : ℤ
  likes : ℤ
  comments : ℤ
  likesDisabled : Bool
  commentsDisabled : Bool
  deriving DecidableEq

/-- The channel-statistics fields read by `analyzeAuthenticity`
(`safeInt(channelStats.subscriberCount)` and
`safeInt(channelStats.viewCount)`). -/
structure ChannelStats where
  subscriberCount : ℤ
  viewCount : ℤ

/-- `coefficientOfVariation` from `authenticity.js` (lines 489–495):
0 for fewer than two values or zero mean, else population standard
deviation divided by the mean. -/
noncomputable def coefficientOfVariation (values : List ℚ) : ℝ :=
  if values.length < 2 then 0
  else if meanQ values = 0 then 0
  else Real.sqrt ((popVarQ values : ℚ) : ℝ) / ((meanQ values : ℚ) : ℝ)

/-- The accumulated `deductions` of `analyzeAuthenticity`
(`authenticity.js` lines 360–473): the five signals in source order.
Signal 1 (like-to-view CV, ≥3 ratios among likes-enabled videos): CV below
0.15 deducts 30, CV in [0.15, 0.20) deducts 10. Signal 2 (comments per 100
likes, positive total likes): below 0.5 deducts 25, above 20 deducts 15.
Signal 3 (lifetime views per subscriber, subscribers > 1000 and positive
views): below 5 deducts 25. Signal 4 (zero-comment, comments-enabled
videos with more than 50 likes): when present and ≥30% of eligible videos
(percentage rounded first), deducts 15. Signal 5 (view-count CV below 0.10
with ≥5 eligible videos): deducts 15. -/
noncomputable def authDeductions (videos : List AVideo) (stats : ChannelStats) : ℤ :=
  let eligible := videos.filter fun v => decide (100 ≤ v.views)
  let lvrs := (eligible.filter fun v => !v.likesDisabled && decide (0 < v.views)).map
    fun v => (v.likes : ℚ) / (v.views : ℚ)
  let d1 : ℤ :=
    if 3 ≤ lvrs.length then
      if coefficientOfVariation lvrs < (3/20 : ℝ) then 30
      else if coefficientOfVariation lvrs < (1/5 : ℝ) then 10
      else 0
    else 0
  let totalLikes := (eligible.map fun v => v.likes).sum
  let totalComments := (eligible.map fun v => v.comments).sum
  let d2 : ℤ :=
    if 0 < totalLikes then
      if (totalComments : ℚ) / (totalLikes : ℚ) * 100 < 1/2 then 25
      else if 20 < (totalComments : ℚ) / (totalLikes : ℚ) * 100 then 15
      else 0
    else 0
  let d3 : ℤ :=
    if 1000 < stats.subscriberCount ∧ 0 < stats.viewCount then
      if (stats.viewCount : ℚ) / (stats.subscriberCount : ℚ) < 5 then 25 else 0
    else 0
  let zc := eligible.filter fun v =>
    decide (v.comments = 0) && !v.commentsDisabled && decide (50 < v.likes)
  let d4 : ℤ :=
    if 0 < zc.length then
      if 30 ≤ jround ((zc.length : ℚ) / (eligible.length : ℚ) * 100) then 15 else 0
    else 0
  let d5 : ℤ :=
    if coefficientOfVariation (eligible.map fun v => (v.views : ℚ)) < (1/10 : ℝ)
        ∧ 5 ≤ eligible.length then 15
    else 0
  d1 + d2 + d3 + d4 + d5

/-- The two shapes `analyzeAuthenticity` can return: the insufficient-data
variant (null score, status `insufficient_data`) or a computed report with
its score and `videosAnalyzed` count. -/
inductive AuthReport where
  | insufficientData
  | computed (score : ℤ) (videosAnalyzed : ℕ)
  deriving DecidableEq

/-- `analyzeAuthenticity` from `authenticity.js` (lines 329–485): fewer
than 3 videos, or fewer than 3 videos with at least 100 views, yields the
insufficient-data variant; otherwise the score is
`Math.max(0, 100 - deductions)` and `videosAnalyzed` is the eligible
count. -/
noncomputable def analyzeAuthenticity (videos : List AVideo) (stats : ChannelStats) :
    AuthReport :=
  if videos.length < 3 then .insufficientData
  else
    let eligible := videos.filter fun v => decide (100 ≤ v.views)
    if eligible.length < 3 then .insufficientData
    else .computed (max 0 (100 - authDeductions videos stats)) eligible.length

/-- Concrete test channel for the C7 witness: three identical videos with
10000 views, 500 likes, 25 comments each. -/
def demoVideo : AVideo := ⟨10000, 500, 25, false, false⟩

/-- Three copies of `demoVideo`. -/
def demoVideos : List AVideo := [demoVideo, demoVideo, demoVideo]

/-- Concrete channel stats for the C7 witness: 500 subscribers (signal 3
not evaluated), 5000000 lifetime views. -/
def demoStats : ChannelStats := ⟨500, 5000000⟩

-- ─── Shared helper lemmas ─────────────────────────────────────────────────

theorem clamp_nonneg (x : ℚ) : 0 ≤ clamp x 0 100 :=
  le_min (le_max_right x 0) (by norm_num)

theorem clamp_le_100 (x : ℚ) : clamp x 0 100 ≤ 100 := min_le_right _ _

theorem jround_nonneg {x : ℚ} (h : 0 ≤ x) : 0 ≤ jround x :=
  Int.le_floor.mpr (by push_cast; linarith)

theorem jround_le_100 {x : ℚ} (h : x ≤ 100) : jround x ≤ 100 := by
  have : jround x < 101 := by
    rw [jround, Int.floor_lt]; push_cast; linarith
  omega

theorem jround_mono {x y : ℚ} (h : x ≤ y) : jround x ≤ jround y :=
  Int.floor_le_floor (by linarith)

theorem jround_intCast (n : ℤ) : jround (n : ℚ) = n := by
  rw [jround, Int.floor_eq_iff]
  refine ⟨by linarith, by linarith⟩

theorem jround_nonpos {x : ℚ} (h : x ≤ 0) : jround x ≤ 0 := by
  have h1 : jround x < 1 := by
    rw [jround, Int.floor_lt]
    have h2 : ((1 : ℤ) : ℚ) = 1 := by norm_num
    rw [h2]
    linarith
  omega

theorem jround_int_le {n : ℤ} {x : ℚ} (h : (n : ℚ) ≤ x) : n ≤ jround x := by
  calc n = jround (n : ℚ) := (jround_intCast n).symm
    _ ≤ jround x := jround_mono h

theorem calcRate_sorted (views : ℚ) (cpm : CpmTriple) (t q : ℚ) (fl : ℤ)
    (hl : 0 < cpm.low) (hlm : cpm.low ≤ cpm.mid) (hmh : cpm.mid ≤ cpm.high)
    (ht : 0 < t) (hq : 0 < q) (hfl : 0 < fl) :
    jleZ (calcRate views (some cpm) t q (some fl)).low
      (calcRate views (some cpm) t q (some fl)).mid ∧
    jleZ (calcRate views (some cpm) t q (some fl)).mid
      (calcRate views (some cpm) t q (some fl)).high ∧
    (calcRate views (some cpm) t q (some fl)).mid =
      some (max (jround (views / 1000 * cpm.mid * t * q)) (jround ((fl : ℚ) * (3/2)))) ∧
    0 < max (jround (views / 1000 * cpm.mid * t * q)) (jround ((fl : ℚ) * (3/2))) := by
  have hm : 0 < cpm.mid := lt_of_lt_of_le hl hlm
  have hcast : (0 : ℚ) < (fl : ℚ) := by exact_mod_cast hfl
  have hfl0 : (fl : ℤ) ≤ jround ((fl : ℚ) * (3/2)) := jround_int_le (by linarith)
  have hfl1 : (fl : ℤ) ≤ jround ((fl : ℚ) * (5/2)) := jround_int_le (by linarith)
  have hfl52 : jround ((fl : ℚ) * (3/2)) ≤ jround ((fl : ℚ) * (5/2)) :=
    jround_mono (by linarith)
  simp only [calcRate, jleZ]
  have hmidpos : 0 < max (jround (views / 1000 * cpm.mid * t * q))
      (jround ((fl : ℚ) * (3/2))) :=
    lt_of_lt_of_le hfl (le_trans hfl0 (le_max_right _ _))
  rcases le_or_lt 0 views with hv | hv
  · have hu : 0 ≤ views / 1000 * t * q := by positivity
    have k1 : jround (views / 1000 * cpm.low * t * q)
        ≤ jround (views / 1000 * cpm.mid * t * q) := by
      refine jround_mono ?_
      nlinarith [mul_le_mul_of_nonneg_right hlm hu]
    have k2 : jround (views / 1000 * cpm.mid * t * q)
        ≤ jround (views / 1000 * cpm.high * t * q) := by
      refine jround_mono ?_
      nlinarith [mul_le_mul_of_nonneg_right hmh hu]
    exact ⟨max_le (le_trans k1 (le_max_left _ _)) (le_trans hfl0 (le_max_right _ _)),
      max_le_max k2 hfl52, trivial, hmidpos⟩
  · have hu : views / 1000 * t * q < 0 := by
      have h1 : views / 1000 < 0 := div_neg_of_neg_of_pos hv (by norm_num)
      exact mul_neg_of_neg_of_pos (mul_neg_of_neg_of_pos h1 ht) hq
    have r1 : jround (views / 1000 * cpm.low * t * q) ≤ 0 := by
      refine jround_nonpos ?_
      nlinarith [mul_le_mul_of_nonneg_left (le_of_lt hu) (le_of_lt hl)]
    have r2 : jround (views / 1000 * cpm.mid * t * q) ≤ 0 := by
      refine jround_nonpos ?_
      nlinarith [mul_le_mul_of_nonneg_left (le_of_lt hu) (le_of_lt hm)]
    refine ⟨max_le ?_ (le_trans hfl0 (le_max_right _ _)),
      max_le ?_ (le_trans hfl52 (le_max_right _ _)), trivial, hmidpos⟩
    · exact le_trans r1 (le_trans (le_of_lt hfl) (le_trans hfl0 (le_max_right _ _)))
    · exact le_trans r2 (le_trans (le_of_lt hfl) (le_trans hfl1 (le_max_right _ _)))

theorem baseCpmFor_good (tier : String) (h : tier ∉ OBJECT_PROTOTYPE_KEYS) :
    ∃ c, baseCpmFor tier = some c ∧
      0 < c.low ∧ c.low ≤ c.mid ∧ c.mid ≤ c.high := by
  unfold baseCpmFor
  rcases hfind : BASE_CPM.find? (fun e => e.1 == tier) with _ | e
  · rw [hfind]
    refine ⟨⟨15, 22, 35⟩, ?_, by norm_num, by norm_num, by norm_num⟩
    show (if tier ∈ OBJECT_PROTOTYPE_KEYS then none else some (⟨15, 22, 35⟩ : CpmTriple))
        = _
    rw [if_neg h]
  · rw [hfind]
    refine ⟨e.2, rfl, ?_⟩
    have he := List.mem_of_find?_eq_some hfind
    simp only [BASE_CPM, List.mem_cons, List.not_mem_nil, or_false] at he
    rcases he with rfl | rfl | rfl | rfl | rfl <;> norm_num

theorem floorsFor_good (tier : String) (h : tier ∉ OBJECT_PROTOTYPE_KEYS) :
    ∃ f, floorsFor tier = some f ∧
      0 < f.integration ∧ 0 < f.dedicated ∧ 0 < f.shorts := by
  unfold floorsFor
  rcases hfind : TIER_FLOORS.find? (fun e => e.1 == tier) with _ | e
  · rw [hfind]
    refine ⟨⟨2500, 5000, 500⟩, ?_, by norm_num, by norm_num, by norm_num⟩
    show (if tier ∈ OBJECT_PROTOTYPE_KEYS then none
        else some (⟨2500, 5000, 500⟩ : TierFloors)) = _
    rw [if_neg h]
  · rw [hfind]
    refine ⟨e.2, rfl, ?_⟩
    have he := List.mem_of_find?_eq_some hfind
    simp only [TIER_FLOORS, List.mem_cons, List.not_mem_nil, or_false] at he
    rcases he with rfl | rfl | rfl | rfl | rfl <;> norm_num

theorem engagementMultiplier_pos (cfs : ℚ) : 0 < engagementMultiplier cfs := by
  unfold engagementMultiplier
  split_ifs <;> norm_num

theorem gapsOf_length : ∀ l : List ℚ, (gapsOf l).length = l.length - 1
  | [] => rfl
  | [_] => rfl
  | a :: b :: rest => by
    simp only [gapsOf, List.length_cons]
    rw [gapsOf_length (b :: rest)]
    simp

theorem scan_foldl (rs : RegexScanners) (videos : List String) :
    ∀ a b, videos.foldl (scanStep rs) (a, b) =
      (a + ((videos.map fun d => (disclosureSignals d).length).sum),
       b + (videos.filter fun d => decide (0 < videoSignalTotal rs d)).length) := by
  induction videos with
  | nil => intro a b; simp
  | cons v l ih =>
    intro a b
    by_cases h : 0 < videoSignalTotal rs v
    · simp only [List.foldl_cons, scanStep, if_pos h]
      rw [ih, List.filter_cons_of_pos (by simpa using h)]
      simp only [List.map_cons, List.sum_cons, List.length_cons, Prod.mk.injEq]
      refine ⟨by omega, by omega⟩
    · simp only [List.foldl_cons, scanStep, if_neg h]
      rw [ih, List.filter_cons_of_neg (by simpa using h)]
      simp only [List.map_cons, List.sum_cons, Prod.mk.injEq]
      refine ⟨by omega, trivial⟩

theorem nicheEntryStep_snd_le (cat : String) (a e : String × ℚ) :
    a.2 ≤ (nicheEntryStep cat a e).2 := by
  unfold nicheEntryStep
  split_ifs with h
  · exact le_of_lt h.2
  · exact le_refl _

theorem foldl_nicheEntryStep_le (cat : String) (l : List (String × ℚ)) :
    ∀ acc, acc.2 ≤ (l.foldl (nicheEntryStep cat) acc).2 := by
  induction l with
  | nil => intro acc; exact le_refl _
  | cons e l ih =>
    intro acc
    simp only [List.foldl_cons]
    exact le_trans (nicheEntryStep_snd_le cat acc e) (ih _)

theorem foldl_nicheEntryStep_ge (cat : String) (l : List (String × ℚ)) :
    ∀ acc, ∀ e ∈ l, nicheMatch cat e.1 → e.2 ≤ (l.foldl (nicheEntryStep cat) acc).2 := by
  induction l with
  | nil => simp
  | cons a l ih =>
    intro acc e he hm
    simp only [List.foldl_cons]
    rcases List.mem_cons.mp he with rfl | he'
    · refine le_trans ?_ (foldl_nicheEntryStep_le cat l _)
      unfold nicheEntryStep
      split_ifs with h
      · exact le_refl _
      · push_neg at h
        exact h hm
    · exact ih _ e he' hm

theorem foldl_nicheEntryStep_cases (cat : String) (l : List (String × ℚ)) :
    ∀ acc, l.foldl (nicheEntryStep cat) acc = acc ∨
      (l.foldl (nicheEntryStep cat) acc ∈ l ∧
        nicheMatch cat (l.foldl (nicheEntryStep cat) acc).1 ∧
        acc.2 < (l.foldl (nicheEntryStep cat) acc).2) := by
  induction l with
  | nil => intro acc; exact Or.inl rfl
  | cons a l ih =>
    intro acc
    simp only [List.foldl_cons]
    rcases ih (nicheEntryStep cat acc a) with h | h
    · rw [h]
      unfold nicheEntryStep
      split_ifs with hc
      · exact Or.inr ⟨List.mem_cons_self a l, hc.1, hc.2⟩
      · exact Or.inl rfl
    · exact Or.inr ⟨List.mem_cons_of_mem a h.1, h.2.1,
        lt_of_le_of_lt (nicheEntryStep_snd_le cat acc a) h.2.2⟩

theorem nicheFold_le (cats : List String) :
    ∀ acc, acc.2 ≤ (cats.foldl (fun a c => nicheStep c a) acc).2 := by
  induction cats with
  | nil => intro acc; exact le_refl _
  | cons a l ih =>
    intro acc
    simp only [List.foldl_cons]
    exact le_trans (foldl_nicheEntryStep_le a NICHE_MULTIPLIERS acc) (ih _)

theorem nicheFold_ge (cats : List String) :
    ∀ acc, ∀ c ∈ cats, ∀ e ∈ NICHE_MULTIPLIERS, nicheMatch c e.1 →
      e.2 ≤ (cats.foldl (fun a c => nicheStep c a) acc).2 := by
  induction cats with
  | nil => simp
  | cons a l ih =>
    intro acc c hc e he hm
    simp only [List.foldl_cons]
    rcases List.mem_cons.mp hc with rfl | hc'
    · exact le_trans (foldl_nicheEntryStep_ge c NICHE_MULTIPLIERS acc e he hm)
        (nicheFold_le l _)
    · exact ih _ c hc' e he hm

theorem nicheFold_cases (cats : List String) :
    ∀ acc, cats.foldl (fun a c => nicheStep c a) acc = acc ∨
      (cats.foldl (fun a c => nicheStep c a) acc ∈ NICHE_MULTIPLIERS ∧
        (∃ c ∈ cats, nicheMatch c (cats.foldl (fun a c => nicheStep c a) acc).1) ∧
        acc.2 < (cats.foldl (fun a c => nicheStep c a) acc).2) := by
  induction cats with
  | nil => intro acc; exact Or.inl rfl
  | cons a l ih =>
    intro acc
    simp only [List.foldl_cons]
    rcases ih (nicheStep a acc) with h | h
    · rw [h]
      rcases foldl_nicheEntryStep_cases a NICHE_MULTIPLIERS acc with h2 | h2
      · exact Or.inl h2
      · exact Or.inr ⟨h2.1, ⟨a, List.mem_cons_self a l, h2.2.1⟩, h2.2.2⟩
    · refine Or.inr ⟨h.1, ?_,
        lt_of_le_of_lt (foldl_nicheEntryStep_le a NICHE_MULTIPLIERS acc) h.2.2⟩
      obtain ⟨c, hcl, hcm⟩ := h.2.1
      exact ⟨c, List.mem_cons_of_mem a hcl, hcm⟩

/-- Concrete evaluation: a category list containing only `"Music"` matches
the Music niche (multiplier 0.8 < 1), yet the accumulator never moves off
the `("General", 1.0)` default because the update requires a strictly
greater multiplier. -/
theorem nicheAdjustment_music_eval : nicheAdjustment ["Music"] = ("General", 1) := by
  simp only [nicheAdjustment, nicheStep, NICHE_MULTIPLIERS, List.foldl, nicheEntryStep]
  norm_num [show nicheMatch "Music" "Technology" = false from by decide,
    show nicheMatch "Music" "Finance" = false from by decide,
    show nicheMatch "Music" "Business" = false from by decide,
    show nicheMatch "Music" "Science" = false from by decide,
    show nicheMatch "Music" "Education" = false from by decide,
    show nicheMatch "Music" "Health" = false from by decide,
    show nicheMatch "Music" "Gaming" = false from by decide,
    show nicheMatch "Music" "Music" = true from by decide,
    show nicheMatch "Music" "Entertainment" = false from by decide,
    show nicheMatch "Music" "Sports" = false from by decide,
    show nicheMatch "Music" "Lifestyle" = false from by decide,
    show nicheMatch "Music" "Comedy" = false from by decide,
    show nicheMatch "Music" "Film" = false from by decide,
    show nicheMatch "Music" "Society" = false from by decide]

/-- Concrete evaluation: `["Technology"]` selects the Technology niche with
multiplier 1.3. -/
theorem nicheAdjustment_technology_eval :
    nicheAdjustment ["Technology"] = ("Technology", 13/10) := by
  simp only [nicheAdjustment, nicheStep, NICHE_MULTIPLIERS, List.foldl, nicheEntryStep]
  norm_num [show nicheMatch "Technology" "Technology" = true from by decide,
    show nicheMatch "Technology" "Finance" = false from by decide,
    show nicheMatch "Technology" "Business" = false from by decide,
    show nicheMatch "Technology" "Science" = false from by decide,
    show nicheMatch "Technology" "Education" = false from by decide,
    show nicheMatch "Technology" "Health" = false from by decide,
    show nicheMatch "Technology" "Gaming" = false from by decide,
    show nicheMatch "Technology" "Music" = false from by decide,
    show nicheMatch "Technology" "Entertainment" = false from by decide,
    show nicheMatch "Technology" "Sports" = false from by decide,
    show nicheMatch "Technology" "Lifestyle" = false from by decide,
    show nicheMatch "Technology" "Comedy" = false from by decide,
    show nicheMatch "Technology" "Film" = false from by decide,
    show nicheMatch "Technology" "Society" = false from by decide]

-- ─── Theorems ─────────────────────────────────────────────────────────────

/-- C1: the Normalizer's duration parser is claimed to support day
components, with `"P1DT2H3M4S"` parsing to 93784 seconds — the repository's
own test suite likewise asserts `"P1DT12H"` → 129600 and `"P2D"` → 172800 —
but the code's regex requires a literal `PT` and has no day group, so all
three day-bearing forms parse to 0 seconds. The hour/minute/second part of
the claim does hold: `"PT1H2M30S"` → 3750 (not short), `"PT45S"` → 45
(short), `"PT0S"` → 0 (not short). -/
theorem parseDuration_no_day_component :
    parseDuration "P1DT2H3M4S" = 0 ∧
    parseDuration "P1DT12H" = 0 ∧
    parseDuration "P2D" = 0 ∧
    parseDuration "PT1H2M30S" = 3750 ∧
    parseDuration "PT45S" = 45 ∧
    parseDuration "PT0S" = 0 ∧
    isShort (parseDuration "PT1H2M30S") = false ∧
    isShort (parseDuration "PT45S") = true ∧
    isShort (parseDuration "PT0S") = false := by
  decide

/-- C2 (counterexample): the claim says the frequency sub-score is linear
from 0 to 50 for posts-per-week between 0.25 and 1, but the code's
`Math.min(50, ppw * 200)` already saturates at 50 on that whole interval:
at `ppw = 1/4` the code yields 50 where the claimed interpolation yields 0,
and at `ppw = 1/2` it yields 50 where the interpolation yields 50/3. -/
theorem freqScore_quarter_to_one_cex :
    freqScore (1/4) = 50 ∧ freqScore (1/2) = 50 ∧
    specLinearOn (1/4) 1 0 50 (1/4) = 0 ∧ specLinearOn (1/4) 1 0 50 (1/2) = 50/3 ∧
    freqScore (1/4) ≠ specLinearOn (1/4) 1 0 50 (1/4) ∧
    freqScore (1/2) ≠ specLinearOn (1/4) 1 0 50 (1/2) := by
  norm_num [freqScore, specLinearOn]

/-- C2 (amended): the frequency sub-score of `calculateCreatorFusionScore`
is linear from 50 to 90 for posts-per-week between 1 and 2, a flat 50 for
values between 0.25 and 1 (the code's `min(50, ppw * 200)` saturates there),
a flat 10 for positive values below 0.25, and 0 at zero posting. -/
theorem freqScore_piecewise (ppw : ℚ) :
    (1 ≤ ppw ∧ ppw ≤ 2 → freqScore ppw = 50 + (ppw - 1) * 40) ∧
    (1/4 ≤ ppw ∧ ppw < 1 → freqScore ppw = 50) ∧
    (0 < ppw ∧ ppw < 1/4 → freqScore ppw = 10) ∧
    (ppw = 0 → freqScore ppw = 0) := by
  refine ⟨fun h => ?_, fun h => ?_, fun h => ?_, fun h => ?_⟩
  · unfold freqScore
    split_ifs with h1 h2 h3
    · have he : ppw = 2 := le_antisymm h.2 h1.1
      subst he; norm_num
    · linarith [h.2]
    · ring
    all_goals linarith [h.1]
  · unfold freqScore
    split_ifs with h1 h2 h3 h4
    · linarith [h.2, h1.1]
    · linarith [h.2]
    · linarith [h.2]
    · rw [min_eq_left (by linarith)]
    · linarith [h.1]
    · linarith [h.1]
  · unfold freqScore
    split_ifs with h1 h2 h3 h4 h5
    · linarith [h.2, h1.1]
    · linarith [h.2]
    · linarith [h.2]
    · linarith [h.2]
    · rfl
    · linarith [h.1]
  · subst h
    norm_num [freqScore]

/-- C2 (witness): the four branches of `freqScore_piecewise` at the concrete
inputs 3/2, 1/2, 1/8 and 0. -/
theorem freqScore_piecewise_witness :
    freqScore (3/2) = 50 + (3/2 - 1) * 40 ∧ freqScore (1/2) = 50 ∧
    freqScore (1/8) = 10 ∧ freqScore 0 = 0 :=
  ⟨(freqScore_piecewise (3/2)).1 ⟨by norm_num, by norm_num⟩,
   (freqScore_piecewise (1/2)).2.1 ⟨by norm_num, by norm_num⟩,
   (freqScore_piecewise (1/8)).2.2.1 ⟨by norm_num, by norm_num⟩,
   (freqScore_piecewise 0).2.2.2 rfl⟩

/-- C3 (counterexample): a single video whose description is
`"#ad #sponsored"` carries two disclosure hashtags; the global
`disclosureCount` is incremented once per hashtag match (not once per
tagged video), so `disclosureRate = round(2 / 1 × 100) = 200`, exceeding
100 — whereas the claim's formula (disclosure-tagged-video-count over
detected-count) yields 100 and claims the rate can never exceed 100.
None of the source's sponsorship-phrase, affiliate, or promo-code regexes
matches the string `"#ad #sponsored"` (no "… by", no URL, no
`code WORD`), so the three abstract families are instantiated with the
empty output they produce on this input. -/
theorem detectSponsorships_disclosureRate_cex :
    (detectSponsorships ⟨fun _ => [], fun _ => [], fun _ => []⟩
      ["#ad #sponsored"]).totalDetected = 1 ∧
    (detectSponsorships ⟨fun _ => [], fun _ => [], fun _ => []⟩
      ["#ad #sponsored"]).disclosureRate = 200 ∧
    ¬(detectSponsorships ⟨fun _ => [], fun _ => [], fun _ => []⟩
      ["#ad #sponsored"]).disclosureRate ≤ 100 := by
  have hfold : (["#ad #sponsored"] : List String).foldl
      (scanStep ⟨fun _ => [], fun _ => [], fun _ => []⟩) (0, 0) = (2, 1) := by decide
  have hlen : (["#ad #sponsored"] : List String).length = 0 ↔ False := by simp
  refine ⟨?_, ?_, ?_⟩
  · simp only [detectSponsorships, hlen, if_false, hfold]
  · simp only [detectSponsorships, hlen, if_false, hfold]
    rw [if_pos (by norm_num)]
    have h2 : (((2, 1) : ℕ × ℕ).1 : ℚ) / (((2, 1) : ℕ × ℕ).2 : ℚ) * 100 = ((200 : ℤ) : ℚ) := by
      norm_num
    rw [h2, jround_intCast]
  · simp only [detectSponsorships, hlen, if_false, hfold]
    rw [if_pos (by norm_num)]
    have h2 : (((2, 1) : ℕ × ℕ).1 : ℚ) / (((2, 1) : ℕ × ℕ).2 : ℚ) * 100 = ((200 : ℤ) : ℚ) := by
      norm_num
    rw [h2, jround_intCast]
    norm_num

/-- C3 (amended): for every video list and every instantiation of the
regex-driven signal families, `totalDetected` is the number of videos with
at least one signal, and `disclosureRate` equals
`round(total-disclosure-hashtag-match-count / detected-count × 100)` when
at least one video is detected and 100 otherwise. A video with several
disclosure hashtags contributes one count per hashtag, so the rate can
exceed 100. -/
theorem detectSponsorships_disclosureRate (rs : RegexScanners) (videos : List String) :
    (detectSponsorships rs videos).totalDetected
        = (videos.filter fun d => decide (0 < videoSignalTotal rs d)).length ∧
    (detectSponsorships rs videos).disclosureRate =
      (if 0 < (videos.filter fun d => decide (0 < videoSignalTotal rs d)).length then
        jround ((((videos.map fun d => (disclosureSignals d).length).sum : ℕ) : ℚ) /
          (((videos.filter fun d => decide (0 < videoSignalTotal rs d)).length : ℕ) : ℚ)
          * 100)
      else 100) := by
  unfold detectSponsorships
  by_cases h : videos.length = 0
  · have hv : videos = [] := List.length_eq_zero.mp h
    subst hv
    simp
  · simp only [if_neg h, scan_foldl rs videos 0 0, Nat.zero_add]
    exact ⟨trivial, trivial⟩

/-- C4 (counterexample): the claim says a matching label always yields that
niche's multiplier, but the code only replaces the `("General", 1.0)`
default when the candidate multiplier is strictly greater than the current
one — so the matching sub-1.0 niche Music (0.8) is never selected:
`["Music"]` yields `("General", 1)`, not `("Music", 0.8)`. -/
theorem nicheAdjustment_sub_one_cex :
    nicheMatch "Music" "Music" = true ∧
    ("Music", (4/5 : ℚ)) ∈ NICHE_MULTIPLIERS ∧
    nicheAdjustment ["Music"] = ("General", 1) ∧
    nicheAdjustment ["Music"] ≠ ("Music", 4/5) := by
  refine ⟨by decide, by simp [NICHE_MULTIPLIERS], nicheAdjustment_music_eval, ?_⟩
  rw [nicheAdjustment_music_eval]
  intro h
  have h1 := congrArg Prod.fst h
  simp at h1

/-- C4 (amended): the niche adjustment of `generateRateCard` returns a
multiplier that is at least 1 and at least every matching table multiplier
(hence it is the single highest matching multiplier whenever some match
exceeds 1); when the multiplier is 1 the label is the default `"General"`,
and when it exceeds 1 the returned (label, multiplier) pair is a table
entry matched by one of the categories. A list containing just
`"Technology"` yields `("Technology", 1.3)`. -/
theorem nicheAdjustment_correct (cats : List String) :
    1 ≤ (nicheAdjustment cats).2 ∧
    (∀ e ∈ NICHE_MULTIPLIERS, (∃ c ∈ cats, nicheMatch c e.1) →
      e.2 ≤ (nicheAdjustment cats).2) ∧
    ((nicheAdjustment cats).2 = 1 → (nicheAdjustment cats).1 = "General") ∧
    ((nicheAdjustment cats).2 ≠ 1 →
      nicheAdjustment cats ∈ NICHE_MULTIPLIERS ∧
      ∃ c ∈ cats, nicheMatch c (nicheAdjustment cats).1) ∧
    nicheAdjustment ["Technology"] = ("Technology", 13/10) := by
  refine ⟨nicheFold_le cats ("General", 1), ?_, ?_, ?_, nicheAdjustment_technology_eval⟩
  · rintro e he ⟨c, hc, hm⟩
    exact nicheFold_ge cats ("General", 1) c hc e he hm
  · intro heq
    rcases nicheFold_cases cats ("General", 1) with h | h
    · rw [nicheAdjustment] at *
      rw [h]
    · exact absurd heq (ne_of_gt h.2.2)
  · intro hne
    rcases nicheFold_cases cats ("General", 1) with h | h
    · exact absurd (congrArg Prod.snd h) hne
    · exact ⟨h.1, h.2.1⟩

/-- C4 (witness): `nicheAdjustment_correct` instantiated at
`cats = ["Technology"]`, discharging the matching hypotheses there. -/
theorem nicheAdjustment_correct_witness :
    (13/10 : ℚ) ≤ (nicheAdjustment ["Technology"]).2 ∧
    nicheAdjustment ["Technology"] ∈ NICHE_MULTIPLIERS ∧
    (∃ c ∈ ["Technology"], nicheMatch c (nicheAdjustment ["Technology"]).1) := by
  have hT := (nicheAdjustment_correct ["Music"]).2.2.2.2
  refine ⟨(nicheAdjustment_correct ["Technology"]).2.1 ("Technology", 13/10)
      (by simp [NICHE_MULTIPLIERS])
      ⟨"Technology", by simp, by decide⟩,
    (nicheAdjustment_correct ["Technology"]).2.2.2.1 (by rw [hT]; norm_num)⟩

/-- C5 (counterexample): when the mean gap is below one day the code
divides the standard deviation by `max(mean, 1) = 1` instead of by the
mean. With publish times 0, 0.25 and 1 days the gaps are 0.25 and 0.75
days: mean 0.5, population stddev 0.25. The claim's formula gives
`round(100 × (1 − min(0.25/0.5, 1))) = 50`, but the code yields
`round(100 × (1 − min(0.25/1, 1))) = 75`. -/
theorem postingConsistency_divisor_cex :
    postingConsistency [0, 1/4, 1] = 75 ∧
    specConsistency [0, 1/4, 1] = 50 ∧
    postingConsistency [0, 1/4, 1] ≠ specConsistency [0, 1/4, 1] := by
  have hsort : sortDates [0, 1/4, 1] = [0, 1/4, 1] :=
    List.mergeSort_eq_self (by norm_num [List.sorted_cons])
  have hgaps : gapsOf [0, 1/4, 1] = [1/4, 3/4] := by norm_num [gapsOf]
  have hs16 : Real.sqrt 16 = 4 := by
    rw [show (16:ℝ) = 4^2 from by norm_num, Real.sqrt_sq (by norm_num)]
  have h1 : postingConsistency [0, 1/4, 1] = 75 := by
    simp only [postingConsistency, hsort, hgaps]
    norm_num [jroundRe]
    rw [hs16]
    rw [show ((4:ℝ)⁻¹ ⊓ 1) = 4⁻¹ from min_eq_left (by norm_num)]
    rw [show ((1:ℝ) - 4⁻¹) * 100 + 1/2 = 151/2 from by norm_num]
    rw [show ⌊(151/2 : ℝ)⌋ = (75:ℤ) from by
      rw [Int.floor_eq_iff]
      norm_num]
    decide
  have h2 : specConsistency [0, 1/4, 1] = 50 := by
    simp only [specConsistency, hsort, hgaps]
    norm_num [jroundRe]
    rw [hs16]
    rw [show ((4:ℝ)⁻¹ / (1/2) ⊓ 1) = 1/2 from by
      rw [min_eq_left (by norm_num)]
      norm_num]
    rw [show ((1:ℝ) - 1/2) * 100 + 1/2 = 101/2 from by norm_num]
    rw [show ⌊(101/2 : ℝ)⌋ = (50:ℤ) from by
      rw [Int.floor_eq_iff]
      norm_num]
    decide
  refine ⟨h1, h2, ?_⟩
  rw [h1, h2]
  decide

/-- C5 (amended): for every date list with at least three entries (hence at
least two gaps), the analyzer's posting consistency equals
`max(0, round(100 × (1 − min(popStdDev(gaps) / max(mean(gaps), 1), 1))))` —
the divisor is the mean gap floored at one day, not the bare mean; with
exactly two dates it is the fixed value 60, and with one date it is 100. -/
theorem postingConsistency_formula (dates : List ℚ) :
    (3 ≤ dates.length →
      postingConsistency dates =
        max 0 (jroundRe ((1 -
          min (Real.sqrt ((popVarQ (gapsOf (sortDates dates)) : ℚ) : ℝ) /
            ((max (meanQ (gapsOf (sortDates dates))) 1 : ℚ) : ℝ)) 1) * 100))) ∧
    (dates.length = 2 → postingConsistency dates = 60) ∧
    (dates.length = 1 → postingConsistency dates = 100) := by
  have hlen : (gapsOf (sortDates dates)).length = dates.length - 1 := by
    rw [gapsOf_length, sortDates, List.length_mergeSort]
  refine ⟨fun h => ?_, fun h => ?_, fun h => ?_⟩
  · simp only [postingConsistency]
    rw [if_pos (by omega)]
    rfl
  · simp only [postingConsistency]
    rw [if_neg (by omega), if_pos (by omega)]
  · simp only [postingConsistency]
    rw [if_neg (by omega), if_neg (by omega)]

/-- C5 (witness): the three branches of `postingConsistency_formula` at the
concrete date lists `[0, 1, 2]`, `[0, 1]` and `[0]`. -/
theorem postingConsistency_formula_witness :
    postingConsistency [0, 1, 2] =
      max 0 (jroundRe ((1 -
        min (Real.sqrt ((popVarQ (gapsOf (sortDates [0, 1, 2])) : ℚ) : ℝ) /
          ((max (meanQ (gapsOf (sortDates [0, 1, 2]))) 1 : ℚ) : ℝ)) 1) * 100)) ∧
    postingConsistency [0, 1] = 60 ∧
    postingConsistency [0] = 100 :=
  ⟨(postingConsistency_formula [0, 1, 2]).1 (by decide),
   (postingConsistency_formula [0, 1]).2.1 (by decide),
   (postingConsistency_formula [0]).2.2 (by decide)⟩

/-- C6: for all inputs, `calculateCreatorFusionScore` returns a score in
[0, 100] whose letter grade is `scoreToGrade` of that score, and
`scoreToGrade` realises the documented inclusive lower bounds (checked at
the claim's sample points 87/50/29 and at every boundary). -/
theorem creatorFusionScore_range_and_grade :
    (∀ (a : Analytics) (subs : ℤ),
      0 ≤ (calculateCreatorFusionScore a subs).score ∧
      (calculateCreatorFusionScore a subs).score ≤ 100 ∧
      (calculateCreatorFusionScore a subs).grade =
        scoreToGrade (calculateCreatorFusionScore a subs).score) ∧
    scoreToGrade 87 = "A" ∧ scoreToGrade 50 = "C+" ∧ scoreToGrade 29 = "F" ∧
    scoreToGrade 100 = "A+" ∧ scoreToGrade 90 = "A+" ∧ scoreToGrade 89 = "A" ∧
    scoreToGrade 80 = "A" ∧ scoreToGrade 79 = "B+" ∧ scoreToGrade 70 = "B+" ∧
    scoreToGrade 69 = "B" ∧ scoreToGrade 60 = "B" ∧ scoreToGrade 59 = "C+" ∧
    scoreToGrade 49 = "C" ∧ scoreToGrade 40 = "C" ∧ scoreToGrade 39 = "D" ∧
    scoreToGrade 30 = "D" ∧ scoreToGrade 29 = "F" ∧ scoreToGrade 0 = "F" := by
  refine ⟨fun a subs => ?_, by decide⟩
  simp only [calculateCreatorFusionScore]
  set e := clamp (engScore a.engagementRate (benchFor (classifyAudienceTier subs).name)) 0 100
    with he
  set c := clamp a.postingConsistency 0 100 with hc
  set f := clamp (freqScore a.postsPerWeek) 0 100 with hf
  set v := clamp (vsScore a.viewToSubRatio) 0 100 with hv
  set au := clamp (audScore subs) 0 100 with hau
  have hX0 : 0 ≤ e * (35/100) + c * (20/100) + f * (15/100) + v * (15/100)
      + au * (15/100) := by
    have := clamp_nonneg (engScore a.engagementRate (benchFor (classifyAudienceTier subs).name))
    have := clamp_nonneg a.postingConsistency
    have := clamp_nonneg (freqScore a.postsPerWeek)
    have := clamp_nonneg (vsScore a.viewToSubRatio)
    have := clamp_nonneg (audScore subs)
    rw [← he, ← hc, ← hf, ← hv, ← hau] at *
    linarith
  have hX1 : e * (35/100) + c * (20/100) + f * (15/100) + v * (15/100)
      + au * (15/100) ≤ 100 := by
    have := clamp_le_100 (engScore a.engagementRate (benchFor (classifyAudienceTier subs).name))
    have := clamp_le_100 a.postingConsistency
    have := clamp_le_100 (freqScore a.postsPerWeek)
    have := clamp_le_100 (vsScore a.viewToSubRatio)
    have := clamp_le_100 (audScore subs)
    rw [← he, ← hc, ← hf, ← hv, ← hau] at *
    linarith
  have h0 := jround_nonneg hX0
  have h1 := jround_le_100 hX1
  rw [max_eq_left h0, min_eq_left h1]
  exact ⟨h0, h1, rfl⟩

/-- Usage-rights addon ordering: 30%/65%/100% of a genuine positive
integration mid-rate are non-decreasing after rounding. -/
theorem usage_sorted {m : Option ℤ} {M : ℤ} (hm : m = some M) (hM : 0 < M) :
    jleZ (jscaleRound m (3/10)) (jscaleRound m (13/20)) ∧
    jleZ (jscaleRound m (13/20)) (jscaleRound m 1) := by
  subst hm
  simp only [jscaleRound, jleZ]
  have hq : (0 : ℚ) < (M : ℚ) := by exact_mod_cast hM
  exact ⟨jround_mono (by linarith), jround_mono (by linarith)⟩

/-- C9 (counterexample): the claim quantifies over any tier string, but for
`tier = "toString"` the JavaScript property access `BASE_CPM['toString']`
returns the function inherited from `Object.prototype` — which is not
nullish, so the `??` fallback is skipped — and its `low`/`mid`/`high`
fields are `undefined`; every price of the card is then `NaN`
(modelled `none`), and since `NaN <= NaN` is false in JavaScript, the
integration triple violates `low ≤ mid`. -/
theorem rateCard_nan_cex :
    ("toString" ∉ ["Nano", "Micro", "Mid-Tier", "Macro", "Mega"]) ∧
    ("toString" ∈ OBJECT_PROTOTYPE_KEYS) ∧
    (generateRateCard 50000 "toString" 50 [] none).estimatedIntegrationRate.low = none ∧
    (generateRateCard 50000 "toString" 50 [] none).estimatedIntegrationRate.mid = none ∧
    ¬ jleZ (generateRateCard 50000 "toString" 50 [] none).estimatedIntegrationRate.low
      (generateRateCard 50000 "toString" 50 [] none).estimatedIntegrationRate.mid := by
  have h1 : (generateRateCard 50000 "toString" 50 [] none).estimatedIntegrationRate.low
      = none := rfl
  have h2 : (generateRateCard 50000 "toString" 50 [] none).estimatedIntegrationRate.mid
      = none := rfl
  refine ⟨by decide, by decide, h1, h2, ?_⟩
  rw [h1, h2]
  exact fun h => h

/-- C9 (amended): for every rate card produced by `generateRateCard` whose
tier string is not an `Object.prototype` property name (for those twelve
strings the prototype-chain lookup bypasses the `??` fallback and every
price is `NaN`) — and any average views of either sign, composite score,
category list, and sponsorship input — each of the four priced triples
(integration, dedicated video, Shorts, usage-rights addon) satisfies
low ≤ mid ≤ high. -/
theorem rateCard_ranges_sorted (avgViews : ℚ) (tier : String) (cfs : ℚ)
    (cats : List String) (sponsorship : Option ℤ)
    (htier : tier ∉ OBJECT_PROTOTYPE_KEYS) :
    jleZ (generateRateCard avgViews tier cfs cats sponsorship).estimatedIntegrationRate.low
      (generateRateCard avgViews tier cfs cats sponsorship).estimatedIntegrationRate.mid ∧
    jleZ (generateRateCard avgViews tier cfs cats sponsorship).estimatedIntegrationRate.mid
      (generateRateCard avgViews tier cfs cats sponsorship).estimatedIntegrationRate.high ∧
    jleZ (generateRateCard avgViews tier cfs cats sponsorship).estimatedDedicatedRate.low
      (generateRateCard avgViews tier cfs cats sponsorship).estimatedDedicatedRate.mid ∧
    jleZ (generateRateCard avgViews tier cfs cats sponsorship).estimatedDedicatedRate.mid
      (generateRateCard avgViews tier cfs cats sponsorship).estimatedDedicatedRate.high ∧
    jleZ (generateRateCard avgViews tier cfs cats sponsorship).estimatedShortsRate.low
      (generateRateCard avgViews tier cfs cats sponsorship).estimatedShortsRate.mid ∧
    jleZ (generateRateCard avgViews tier cfs cats sponsorship).estimatedShortsRate.mid
      (generateRateCard avgViews tier cfs cats sponsorship).estimatedShortsRate.high ∧
    jleZ (generateRateCard avgViews tier cfs cats sponsorship).usageRightsAddon.low
      (generateRateCard avgViews tier cfs cats sponsorship).usageRightsAddon.mid ∧
    jleZ (generateRateCard avgViews tier cfs cats sponsorship).usageRightsAddon.mid
      (generateRateCard avgViews tier cfs cats sponsorship).usageRightsAddon.high := by
  obtain ⟨c, hc, hcl, hclm, hcmh⟩ := baseCpmFor_good tier htier
  obtain ⟨f, hf, hf1, hf2, hf3⟩ := floorsFor_good tier htier
  have hqq : 0 < (nicheAdjustment cats).2 * engagementMultiplier cfs :=
    mul_pos (lt_of_lt_of_le zero_lt_one (nicheFold_le cats ("General", 1)))
      (engagementMultiplier_pos cfs)
  have hI := calcRate_sorted avgViews c 1
    ((nicheAdjustment cats).2 * engagementMultiplier cfs) f.integration
    hcl hclm hcmh one_pos hqq hf1
  have hD := calcRate_sorted avgViews c 2
    ((nicheAdjustment cats).2 * engagementMultiplier cfs) f.dedicated
    hcl hclm hcmh (by norm_num) hqq hf2
  have hS := calcRate_sorted (avgViews * (6/10)) c (3/10)
    ((nicheAdjustment cats).2 * engagementMultiplier cfs) f.shorts
    hcl hclm hcmh (by norm_num) hqq hf3
  have hU := usage_sorted hI.2.2.1 hI.2.2.2
  simp only [generateRateCard, hc, hf, Option.map_some']
  exact ⟨hI.1, hI.2.1, hD.1, hD.2.1, hS.1, hS.2.1, hU.1, hU.2⟩

/-- C9 (witness): `rateCard_ranges_sorted` at the concrete inputs
tier `"Mid-Tier"` (not a prototype key, discharged by `decide`),
50000 average views, composite score 72. -/
theorem rateCard_ranges_sorted_witness :
    jleZ (generateRateCard 50000 "Mid-Tier" 72 [] none).estimatedIntegrationRate.low
      (generateRateCard 50000 "Mid-Tier" 72 [] none).estimatedIntegrationRate.mid ∧
    jleZ (generateRateCard 50000 "Mid-Tier" 72 [] none).estimatedIntegrationRate.mid
      (generateRateCard 50000 "Mid-Tier" 72 [] none).estimatedIntegrationRate.high ∧
    jleZ (generateRateCard 50000 "Mid-Tier" 72 [] none).estimatedDedicatedRate.low
      (generateRateCard 50000 "Mid-Tier" 72 [] none).estimatedDedicatedRate.mid ∧
    jleZ (generateRateCard 50000 "Mid-Tier" 72 [] none).estimatedDedicatedRate.mid
      (generateRateCard 50000 "Mid-Tier" 72 [] none).estimatedDedicatedRate.high ∧
    jleZ (generateRateCard 50000 "Mid-Tier" 72 [] none).estimatedShortsRate.low
      (generateRateCard 50000 "Mid-Tier" 72 [] none).estimatedShortsRate.mid ∧
    jleZ (generateRateCard 50000 "Mid-Tier" 72 [] none).estimatedShortsRate.mid
      (generateRateCard 50000 "Mid-Tier" 72 [] none).estimatedShortsRate.high ∧
    jleZ (generateRateCard 50000 "Mid-Tier" 72 [] none).usageRightsAddon.low
      (generateRateCard 50000 "Mid-Tier" 72 [] none).usageRightsAddon.mid ∧
    jleZ (generateRateCard 50000 "Mid-Tier" 72 [] none).usageRightsAddon.mid
      (generateRateCard 50000 "Mid-Tier" 72 [] none).usageRightsAddon.high :=
  rateCard_ranges_sorted 50000 "Mid-Tier" 72 [] none (by decide)

/-- C10 (counterexample): the claim says every unknown tier string prices
with the Mid-Tier table, but `"toString"` — not a tier name — hits the
`Object.prototype`-inherited function instead of the `??` fallback, so its
card is `NaN`-filled (`none`) where the Mid-Tier card has real prices
(integration low = max(round(50000/1000 × 15 × 1), 2500) = 2500): the two
cards differ. -/
theorem generateRateCard_proto_tier_cex :
    ("toString" ∉ ["Nano", "Micro", "Mid-Tier", "Macro", "Mega"]) ∧
    baseCpmFor "toString" = none ∧
    baseCpmFor "Mid-Tier" = some ⟨15, 22, 35⟩ ∧
    (generateRateCard 50000 "toString" 50 [] none).estimatedIntegrationRate.low = none ∧
    (generateRateCard 50000 "Mid-Tier" 50 [] none).estimatedIntegrationRate.low
      = some 2500 ∧
    generateRateCard 50000 "toString" 50 [] none ≠
      generateRateCard 50000 "Mid-Tier" 50 [] none := by
  have hnan : (generateRateCard 50000 "toString" 50 [] none).estimatedIntegrationRate.low
      = none := rfl
  have heng : engagementMultiplier 50 = 1 := by
    unfold engagementMultiplier
    rw [if_neg (by norm_num), if_neg (by norm_num), if_pos (by norm_num)]
  have hmid : (generateRateCard 50000 "Mid-Tier" 50 [] none).estimatedIntegrationRate.low
      = some 2500 := by
    have hniche : nicheAdjustment [] = ("General", 1) := rfl
    have hbM : baseCpmFor "Mid-Tier" = some ⟨15, 22, 35⟩ := rfl
    have hfM : floorsFor "Mid-Tier" = some ⟨2500, 5000, 500⟩ := rfl
    simp only [generateRateCard, hniche, heng, hbM, hfM, Option.map_some', calcRate]
    rw [show (50000 : ℚ) / 1000 * 15 * 1 * (1 * 1) = ((750 : ℤ) : ℚ) from by norm_num,
      jround_intCast]
    norm_num
  refine ⟨by decide, rfl, rfl, hnan, hmid, fun h => ?_⟩
  have hcmp := congrArg (fun card => card.estimatedIntegrationRate.low) h
  simp only [hnan, hmid] at hcmp
  exact Option.noConfusion hcmp

/-- C10 (amended): `generateRateCard` does not fail for any tier string;
for every tier string that is neither one of the five known tier names nor
an `Object.prototype` property name, it silently prices using the Mid-Tier
CPM table and the Mid-Tier fixed-dollar floors (for the twelve prototype
property names the lookup returns the inherited non-nullish value instead
and the card is `NaN`-filled). -/
theorem generateRateCard_unknown_tier (tier : String)
    (h : tier ∉ ["Nano", "Micro", "Mid-Tier", "Macro", "Mega"])
    (hp : tier ∉ OBJECT_PROTOTYPE_KEYS) :
    baseCpmFor tier = baseCpmFor "Mid-Tier" ∧
    floorsFor tier = floorsFor "Mid-Tier" ∧
    ∀ (avgViews cfs : ℚ) (cats : List String) (sp : Option ℤ),
      generateRateCard avgViews tier cfs cats sp =
        generateRateCard avgViews "Mid-Tier" cfs cats sp := by
  simp only [List.mem_cons, List.not_mem_nil, or_false, not_or] at h
  obtain ⟨h1, h2, h3, h4, h5⟩ := h
  have hb : BASE_CPM.find? (fun e => e.1 == tier) = none := by
    rw [List.find?_eq_none]
    intro x hx
    simp only [BASE_CPM, List.mem_cons, List.not_mem_nil, or_false] at hx
    rcases hx with rfl | rfl | rfl | rfl | rfl <;> simp only [beq_iff_eq] <;> intro he <;>
      first
        | exact h1 he.symm
        | exact h2 he.symm
        | exact h3 he.symm
        | exact h4 he.symm
        | exact h5 he.symm
  have hf : TIER_FLOORS.find? (fun e => e.1 == tier) = none := by
    rw [List.find?_eq_none]
    intro x hx
    simp only [TIER_FLOORS, List.mem_cons, List.not_mem_nil, or_false] at hx
    rcases hx with rfl | rfl | rfl | rfl | rfl <;> simp only [beq_iff_eq] <;> intro he <;>
      first
        | exact h1 he.symm
        | exact h2 he.symm
        | exact h3 he.symm
        | exact h4 he.symm
        | exact h5 he.symm
  have hbase : baseCpmFor tier = baseCpmFor "Mid-Tier" := by
    unfold baseCpmFor
    rw [hb]
    show (if tier ∈ OBJECT_PROTOTYPE_KEYS then none else some (⟨15, 22, 35⟩ : CpmTriple))
        = _
    rw [if_neg hp]
    rfl
  have hfloors : floorsFor tier = floorsFor "Mid-Tier" := by
    unfold floorsFor
    rw [hf]
    show (if tier ∈ OBJECT_PROTOTYPE_KEYS then none
        else some (⟨2500, 5000, 500⟩ : TierFloors)) = _
    rw [if_neg hp]
    rfl
  refine ⟨hbase, hfloors, fun avgViews cfs cats sp => ?_⟩
  simp only [generateRateCard, hbase, hfloors]

/-- C10 (witness): the empty string is neither a known tier name nor an
`Object.prototype` key, and prices exactly as `"Mid-Tier"` does. -/
theorem generateRateCard_unknown_tier_witness :
    baseCpmFor "" = baseCpmFor "Mid-Tier" ∧
    floorsFor "" = floorsFor "Mid-Tier" ∧
    generateRateCard 50000 "" 72 [] none =
      generateRateCard 50000 "Mid-Tier" 72 [] none := by
  have h := generateRateCard_unknown_tier "" (by decide) (by decide)
  exact ⟨h.1, h.2.1, h.2.2 50000 72 [] none⟩

/-- C7: `analyzeAuthenticity` returns the insufficient-data variant exactly
when the input has fewer than 3 videos or fewer than 3 videos with at least
100 views; otherwise its score is `max(0, 100 − accumulated deductions)`
and its `videosAnalyzed` field is the number of videos with at least 100
views. -/
theorem analyzeAuthenticity_cases (videos : List AVideo) (stats : ChannelStats) :
    (analyzeAuthenticity videos stats = .insufficientData ↔
      videos.length < 3 ∨ (videos.filter fun v => decide (100 ≤ v.views)).length < 3) ∧
    (∀ s n, analyzeAuthenticity videos stats = .computed s n →
      s = max 0 (100 - authDeductions videos stats) ∧
      n = (videos.filter fun v => decide (100 ≤ v.views)).length) := by
  simp only [analyzeAuthenticity]
  split_ifs with h1 h2
  · refine ⟨by simp [h1], fun s n h => absurd h (by simp)⟩
  · refine ⟨by simp [h2], fun s n h => absurd h (by simp)⟩
  · constructor
    · simp only [reduceCtorEq, false_iff]
      push_neg
      exact ⟨le_of_not_lt h1, le_of_not_lt h2⟩
    · intro s n h
      injection h with hs hn
      exact ⟨hs.symm, hn.symm⟩

-- ─── C7 witness evaluation ────────────────────────────────────────────────

theorem demo_eligible :
    demoVideos.filter (fun v => decide (100 ≤ v.views)) = demoVideos := by decide

theorem demo_cv : coefficientOfVariation [1/20, 1/20, 1/20] = 0 := by
  unfold coefficientOfVariation
  rw [if_neg (by norm_num), if_neg (by norm_num [meanQ])]
  norm_num [popVarQ, meanQ]

theorem demo_deductions : authDeductions demoVideos demoStats = 30 := by
  have hf1 : demoVideos.filter (fun v => !v.likesDisabled && decide (0 < v.views))
      = demoVideos := by decide
  have hmap : demoVideos.map (fun v => (v.likes : ℚ) / (v.views : ℚ))
      = [1/20, 1/20, 1/20] := by
    simp [demoVideos, demoVideo]
    norm_num
  have hzc : demoVideos.filter (fun v =>
      decide (v.comments = 0) && !v.commentsDisabled && decide (50 < v.likes)) = [] := by
    decide
  simp only [authDeductions, demo_eligible, hf1, hmap, hzc]
  rw [demo_cv]
  norm_num [demoVideos, demoVideo, demoStats, jround]

theorem demo_eval : analyzeAuthenticity demoVideos demoStats = .computed 70 3 := by
  simp only [analyzeAuthenticity, demo_eligible]
  rw [if_neg (by decide), if_neg (by decide), demo_deductions]
  norm_num [demoVideos]

/-- C7 (witness): `analyzeAuthenticity_cases` applied to the concrete
three-video channel `demoVideos`/`demoStats`, whose report is
`computed 70 3` (the identical like-to-view ratios trigger the −30
deduction and nothing else fires). -/
theorem analyzeAuthenticity_cases_witness :
    analyzeAuthenticity demoVideos demoStats = .computed 70 3 ∧
    (70 : ℤ) = max 0 (100 - authDeductions demoVideos demoStats) ∧
    (3 : ℕ) = (demoVideos.filter fun v => decide (100 ≤ v.views)).length := by
  have h := (analyzeAuthenticity_cases demoVideos demoStats).2 70 3 demo_eval
  exact ⟨demo_eval, h.1, h.2⟩

/-- C8: `classifyAudienceTier` is a total, gap-free partition of the natural
subscriber counts: every `n : ℕ` matches exactly one entry of
`AUDIENCE_TIERS`, the `?? AUDIENCE_TIERS[0]` defensive default is never
reached on ℕ (the `find?` always succeeds), and the five sample counts map
to Nano, Micro, Mid-Tier, Macro, Mega respectively. -/
theorem classifyAudienceTier_partition :
    (∀ n : ℕ, (AUDIENCE_TIERS.filter fun t => tierMatches t (n : ℤ)).length = 1) ∧
    (∀ n : ℕ, (AUDIENCE_TIERS.find? fun t => tierMatches t (n : ℤ)).isSome) ∧
    (classifyAudienceTier 500).name = "Nano" ∧
    (classifyAudienceTier 25000).name = "Micro" ∧
    (classifyAudienceTier 250000).name = "Mid-Tier" ∧
    (classifyAudienceTier 750000).name = "Macro" ∧
    (classifyAudienceTier 5000000).name = "Mega" := by
  refine ⟨?_, ?_, by decide⟩
  · intro n
    simp only [AUDIENCE_TIERS, tierMatches, List.filter_cons, List.filter_nil,
      Bool.and_eq_true, decide_eq_true_eq]
    split_ifs <;> simp_all <;> omega
  · intro n
    rw [List.find?_isSome]
    by_cases h1 : n ≤ 9999
    · exact ⟨⟨"Nano", 0, some 9999, "nano (1K–10K)"⟩, by simp [AUDIENCE_TIERS],
        by simp [tierMatches]; omega⟩
    · by_cases h2 : n ≤ 49999
      · exact ⟨⟨"Micro", 10000, some 49999, "micro (10K–50K)"⟩, by simp [AUDIENCE_TIERS],
          by simp [tierMatches]; omega⟩
      · by_cases h3 : n ≤ 499999
        · exact ⟨⟨"Mid-Tier", 50000, some 499999, "mid-tier (50K–500K)"⟩,
            by simp [AUDIENCE_TIERS], by simp [tierMatches]; omega⟩
        · by_cases h4 : n ≤ 999999
          · exact ⟨⟨"Macro", 500000, some 999999, "macro (500K–1M)"⟩,
              by simp [AUDIENCE_TIERS], by simp [tierMatches]; omega⟩
          · exact ⟨⟨"Mega", 1000000, none, "mega (1M+)"⟩,
              by simp [AUDIENCE_TIERS], by simp [tierMatches]; omega⟩

end CreatorFusion
